import Mathlib

/-
Shallow embedding of the booking state machine of `src/statePatternExample.ts`.

The TypeScript source defines four state classes (`OpenState`, `PendingState`,
`BookedState`, `CancelledState`) implementing `AbstractState` with methods
`book(): string` and `cancel(): string`, and a `Context` holding the current
state with the single public mutator `setCurrentState`.

JavaScript details that matter here:
- `BookedState`'s constructor (lines 64-66) takes `id` but assigns only
  `this.context`; the declared field `this.id` is never assigned, so it holds
  `undefined`.  We model JS numbers-possibly-undefined as `Option Nat`
  (identifiers are opaque, so `Nat` stands in for the JS float).
- `PendingState`'s constructor (lines 82-86) calls `setTimeout` with a
  callback closing over `id` and the fixed delay `BOOKING_DELAY = 10000`;
  the instance itself stores no field.  We model the scheduled callbacks as
  an explicit queue of `Timer` records in the system configuration; since
  every timer has the same delay, they fire in registration order.
- Template strings such as Rebooked using old ID with `undefined` print the
  word undefined; `showJSNum` reproduces that.
-/

namespace StatePattern

/-- A JS number field that may be `undefined` (`none`). -/
abbrev JSNum := Option Nat

/-- How a template string renders a possibly-undefined number. -/
def showJSNum : JSNum → String
  | none => "undefined"
  | some n => toString n

/-- The four state classes of the source, with the data each instance holds:
`PendingState` carries the id captured by its timer callback, `BookedState`
carries its (never-assigned) `id` field, `CancelledState` its `oldID` field. -/
inductive St where
  | openSt : St
  | pendingSt (id : JSNum) : St
  | bookedSt (id : JSNum) : St
  | cancelledSt (oldID : JSNum) : St
  deriving DecidableEq

/-- One scheduled `setTimeout` callback: its delay argument and the `id`
captured by the closure (line 83-85 of the source). -/
structure Timer where
  delay : Nat
  id : JSNum
  deriving DecidableEq

/-- The whole system: the context's current state plus the queue of
scheduled, not-yet-fired timer callbacks. -/
structure Config where
  cur : St
  timers : List Timer
  deriving DecidableEq

/-- `Context.setCurrentState(newState)` (lines 105-107): replaces the current
state, touching nothing else. -/
def Context.setCurrentState (cfg : Config) (s : St) : Config :=
  { cfg with cur := s }

/-- `PendingState.BOOKING_DELAY` (line 80): a `private static readonly`
constant. -/
def PendingState.BOOKING_DELAY : Nat := 10000

/-- `new PendingState(id, context)` (lines 82-86): registers one `setTimeout`
callback closing over `id` with delay `BOOKING_DELAY`, and yields the new
instance. -/
def mkPendingState (id : JSNum) (ts : List Timer) : St × List Timer :=
  (St.pendingSt id, ts ++ [⟨PendingState.BOOKING_DELAY, id⟩])

/-- `new BookedState(id, context)` (lines 64-66): the constructor assigns only
`this.context`; the declared field `this.id` is never assigned, so the
instance's `id` is `undefined` and the `id` argument is dropped. -/
def mkBookedState (id : JSNum) : St := St.bookedSt none

/-- The body of the `setTimeout` callback registered by `PendingState`
(lines 83-85): `context.setCurrentState(new BookedState(id, context))`,
executed unconditionally when the timer fires. -/
def pendingTimerCallback (id : JSNum) (cfg : Config) : Config :=
  Context.setCurrentState cfg (mkBookedState id)

/-- Firing of the oldest scheduled timer (all delays are equal, so timers
fire in registration order); with no timer scheduled nothing can fire. -/
def fireTimer (cfg : Config) : Config :=
  match cfg.timers with
  | [] => cfg
  | t :: rest => pendingTimerCallback t.id { cfg with timers := rest }

/-- Response strings of the source, verbatim. -/
def msgAlreadyCancelled : String := "You\x27ve already cancelled this!"

def msgRebooked (oldID : JSNum) : String := "Rebooked using old ID: " ++ showJSNum oldID

def msgNothingBooked : String := "You haven\x27t booked anything yet"

def msgBookedWith (id : Nat) : String := "Event booked with id: " ++ toString id

def msgEventCancelled : String := "Event cancelled"

def msgAlreadyBooked : String := "You\x27ve already booked this event!"

def msgPleaseWait : String := "Please wait for booking to load before performing an action!"

/-- `OpenState.cancel` (lines 47-49): no transition. -/
def OpenState.cancel (cfg : Config) : Config × String :=
  (cfg, msgNothingBooked)

/-- `OpenState.book` (lines 51-56): `Math.random() * 100` allocates a fresh
identifier (passed in here as the oracle value `freshId`), a `PendingState`
is constructed with it (registering its timer) and installed. -/
def OpenState.book (freshId : Nat) (cfg : Config) : Config × String :=
  let p := mkPendingState (some freshId) cfg.timers
  (Context.setCurrentState { cfg with timers := p.2 } p.1, msgBookedWith freshId)

/-- `CancelledState.cancel` (lines 29-31): no transition. -/
def CancelledState.cancel (cfg : Config) : Config × String :=
  (cfg, msgAlreadyCancelled)

/-- `CancelledState.book` (lines 33-36): re-uses the stored `oldID` to build
a new `PendingState` (registering a fresh timer) and installs it. -/
def CancelledState.book (oldID : JSNum) (cfg : Config) : Config × String :=
  let p := mkPendingState oldID cfg.timers
  (Context.setCurrentState { cfg with timers := p.2 } p.1, msgRebooked oldID)

/-- `BookedState.cancel` (lines 68-71): installs `new CancelledState(this.id, ...)`
where `this.id` is the instance's `id` field. -/
def BookedState.cancel (id : JSNum) (cfg : Config) : Config × String :=
  (Context.setCurrentState cfg (St.cancelledSt id), msgEventCancelled)

/-- `BookedState.book` (lines 73-75): no transition. -/
def BookedState.book (cfg : Config) : Config × String :=
  (cfg, msgAlreadyBooked)

/-- `PendingState.cancel` (lines 88-90): no transition, timers untouched. -/
def PendingState.cancel (cfg : Config) : Config × String :=
  (cfg, msgPleaseWait)

/-- `PendingState.book` (lines 92-94): no transition, timers untouched. -/
def PendingState.book (cfg : Config) : Config × String :=
  (cfg, msgPleaseWait)

/-- A caller-issued book action: dispatch to the current state's `book()`.
`freshId` is the value `Math.random() * 100` would produce, consumed only in
the `OpenState` branch. -/
def doBook (freshId : Nat) (cfg : Config) : Config × String :=
  match cfg.cur with
  | St.openSt => OpenState.book freshId cfg
  | St.pendingSt _ => PendingState.book cfg
  | St.bookedSt _ => BookedState.book cfg
  | St.cancelledSt o => CancelledState.book o cfg

/-- A caller-issued cancel action: dispatch to the current state's `cancel()`. -/
def doCancel (cfg : Config) : Config × String :=
  match cfg.cur with
  | St.openSt => OpenState.cancel cfg
  | St.pendingSt _ => PendingState.cancel cfg
  | St.bookedSt i => BookedState.cancel i cfg
  | St.cancelledSt _ => CancelledState.cancel cfg

/-- The events of an execution: the two caller actions and a timer expiry. -/
inductive Event where
  | bookAct (freshId : Nat) : Event
  | cancelAct : Event
  | timerFire : Event
  deriving DecidableEq

/-- One step of the system. -/
def stepEv (cfg : Config) : Event → Config
  | Event.bookAct f => (doBook f cfg).1
  | Event.cancelAct => (doCancel cfg).1
  | Event.timerFire => fireTimer cfg

/-- `new Context()` (lines 101-103): the constructor installs `OpenState`;
no timer is scheduled yet. -/
def initConfig : Config := ⟨St.openSt, []⟩

/-- Run a trace of events from a freshly constructed context. -/
def run (tr : List Event) : Config := tr.foldl stepEv initConfig

/-- How many fresh identifiers one event allocates: `Math.random()` is called
exactly when `book()` runs with `OpenState` active (line 52). -/
def allocOf (cfg : Config) : Event → Nat
  | Event.bookAct _ => if cfg.cur = St.openSt then 1 else 0
  | Event.cancelAct => 0
  | Event.timerFire => 0

/-- One step of the allocation-instrumented system. -/
def stepAlloc (p : Config × Nat) (e : Event) : Config × Nat :=
  (stepEv p.1 e, p.2 + allocOf p.1 e)

/-- Instrumented run from an arbitrary start. -/
def runAllocFrom (p : Config × Nat) (tr : List Event) : Config × Nat :=
  tr.foldl stepAlloc p

/-- Instrumented run from a freshly constructed context: the final
configuration together with the number of fresh identifiers allocated. -/
def runAlloc (tr : List Event) : Config × Nat :=
  runAllocFrom (initConfig, 0) tr

/-- The method declarations of `class Context` marked `public`
(lines 98-108): only `setCurrentState`. -/
def Context.publicMethods : List String := ["setCurrentState"]

/-- Parameter list of `PendingState`'s constructor (line 82). -/
def PendingState.constructorParams : List String := ["id", "context"]

/-- Parameter list of `Context`'s constructor (line 101). -/
def Context.constructorParams : List String := []

/-- Parameter list of `OpenState`'s constructor (line 43). -/
def OpenState.constructorParams : List String := ["context"]

/-- Parameter list of `BookedState`'s constructor (line 64). -/
def BookedState.constructorParams : List String := ["id", "context"]

/-- Parameter list of `CancelledState`'s constructor (line 24). -/
def CancelledState.constructorParams : List String := ["oldID", "context"]

/-- No step re-enters `openSt`: every installed successor state is a
pending, booked or cancelled state. -/
theorem stepEv_no_reopen (cur : St) (ts : List Timer) (e : Event)
    (h : cur ≠ St.openSt) : (stepEv ⟨cur, ts⟩ e).cur ≠ St.openSt := by
  cases e with
  | bookAct f =>
      cases cur with
      | openSt => exact absurd rfl h
      | pendingSt i => simp [stepEv, doBook, PendingState.book]
      | bookedSt i => simp [stepEv, doBook, BookedState.book]
      | cancelledSt o =>
          simp [stepEv, doBook, CancelledState.book, mkPendingState,
            Context.setCurrentState]
  | cancelAct =>
      cases cur with
      | openSt => exact absurd rfl h
      | pendingSt i => simp [stepEv, doCancel, PendingState.cancel]
      | bookedSt i => simp [stepEv, doCancel, BookedState.cancel, Context.setCurrentState]
      | cancelledSt o => simp [stepEv, doCancel, CancelledState.cancel]
  | timerFire =>
      cases ts with
      | nil => simpa [stepEv, fireTimer] using h
      | cons t rest =>
          simp [stepEv, fireTimer, pendingTimerCallback, mkBookedState,
            Context.setCurrentState]

/-- One instrumented step preserves the invariant: at `openSt` nothing has
been allocated yet, and altogether at most one allocation happened. -/
theorem stepAlloc_invariant (p : Config × Nat) (e : Event)
    (h1 : p.1.cur = St.openSt → p.2 = 0) (h2 : p.2 ≤ 1) :
    ((stepAlloc p e).1.cur = St.openSt → (stepAlloc p e).2 = 0) ∧
      (stepAlloc p e).2 ≤ 1 := by
  obtain ⟨⟨cur, ts⟩, n⟩ := p
  by_cases hc : cur = St.openSt
  · subst hc
    have hn : n = 0 := h1 rfl
    subst hn
    cases e with
    | bookAct f =>
        constructor
        · intro hcontra
          simp [stepAlloc, stepEv, doBook, OpenState.book, mkPendingState,
            Context.setCurrentState] at hcontra
        · simp [stepAlloc, allocOf]
    | cancelAct =>
        constructor <;> simp [stepAlloc, stepEv, doCancel, OpenState.cancel, allocOf]
    | timerFire =>
        cases ts with
        | nil => constructor <;> simp [stepAlloc, stepEv, fireTimer, allocOf]
        | cons t rest =>
            constructor <;>
              simp [stepAlloc, stepEv, fireTimer, pendingTimerCallback,
                mkBookedState, Context.setCurrentState, allocOf]
  · have hnoreopen := stepEv_no_reopen cur ts e hc
    have halloc : allocOf ⟨cur, ts⟩ e = 0 := by
      cases e <;> simp [allocOf, hc]
    constructor
    · intro hcontra
      exact absurd hcontra hnoreopen
    · simpa [stepAlloc, halloc] using h2

/-- The invariant of `stepAlloc_invariant` holds along any trace. -/
theorem runAllocFrom_invariant (tr : List Event) (p : Config × Nat)
    (h1 : p.1.cur = St.openSt → p.2 = 0) (h2 : p.2 ≤ 1) :
    ((runAllocFrom p tr).1.cur = St.openSt → (runAllocFrom p tr).2 = 0) ∧
      (runAllocFrom p tr).2 ≤ 1 := by
  induction tr generalizing p with
  | nil => exact ⟨h1, h2⟩
  | cons e rest ih =>
      have h := stepAlloc_invariant p e h1 h2
      exact ih (stepAlloc p e) h.1 h.2

/-- Claim C1 (code bug witness): the id is not carried across the
`Booked` stage.  Booking from `Open` with fresh id 42, letting the timer
fire, cancelling, and rebooking leaves the `Pending` handler holding
`undefined` (`none`) — not the 42 allocated on the first transition —
because `BookedState`'s constructor never assigns its `id` field. -/
theorem c1_id_dropped_at_booked :
    run [Event.bookAct 42, Event.timerFire, Event.cancelAct, Event.bookAct 0] =
      ⟨St.pendingSt none, [⟨10000, none⟩]⟩ ∧
      St.pendingSt (none : JSNum) ≠ St.pendingSt (some 42) := by
  constructor
  · rfl
  · decide

/-- Claim C2 (counterexample): the timer callback is not identity-guarded.
With the context at `Cancelled(7)` — not the `Pending(5)` instance the timer
was registered for — firing the stale callback is not a no-op: it overwrites
the state. -/
theorem c2_counterexample :
    pendingTimerCallback (some 5) ⟨St.cancelledSt (some 7), []⟩ ≠
      ⟨St.cancelledSt (some 7), []⟩ := by
  decide

/-- Claim C2 (amended): the firing callback performs no identity check — it
unconditionally installs a freshly constructed `Booked` handler (whose `id`
field is `undefined`), whatever the current state is, leaving the timer
queue alone. -/
theorem c2_callback_unconditional (id : JSNum) (cfg : Config) :
    (pendingTimerCallback id cfg).cur = St.bookedSt none ∧
      (pendingTimerCallback id cfg).timers = cfg.timers :=
  ⟨rfl, rfl⟩

/-- Claim C3 (counterexample): `Context` does not expose `requestAction` or
`requestCancel`; its public surface is not the claimed pair of operations. -/
theorem c3_counterexample :
    Context.publicMethods ≠ ["requestAction", "requestCancel"] ∧
      "requestAction" ∉ Context.publicMethods ∧
      "requestCancel" ∉ Context.publicMethods := by
  decide

/-- Claim C3 (amended): the context exposes exactly one caller-facing
operation, `setCurrentState(newState)`, which installs the given handler as
the active state before returning and changes nothing else; no delegating
`requestAction`/`requestCancel` operations exist, so callers invoke `book()`
and `cancel()` directly on the state objects. -/
theorem c3_setCurrentState_only_api (cfg : Config) (s : St) :
    Context.publicMethods = ["setCurrentState"] ∧
      (Context.setCurrentState cfg s).cur = s ∧
      (Context.setCurrentState cfg s).timers = cfg.timers :=
  ⟨rfl, rfl, rfl⟩

/-- Claim C4 (code bug witness): constructing `Pending(5)` registers a
one-shot timer with the fixed delay that closes over id 5, but when it fires
the installed `Booked` handler does not carry id 5 — its `id` field is
`undefined`, because `BookedState`'s constructor drops the argument. -/
theorem c4_timer_installs_booked_without_id :
    mkPendingState (some 5) [] = (St.pendingSt (some 5), [⟨10000, some 5⟩]) ∧
      fireTimer ⟨St.pendingSt (some 5), [⟨10000, some 5⟩]⟩ = ⟨St.bookedSt none, []⟩ ∧
      St.bookedSt (none : JSNum) ≠ St.bookedSt (some 5) := by
  refine ⟨rfl, rfl, ?_⟩
  decide

/-- Claim C5: with `Open` active, `book()` allocates a fresh identifier,
installs a `Pending` handler seeded with it — whose construction registers
the deferred-completion timer — and returns a confirmation message
containing that identifier. -/
theorem c5_open_book (freshId : Nat) (ts : List Timer) :
    doBook freshId ⟨St.openSt, ts⟩ =
      (⟨St.pendingSt (some freshId),
          ts ++ [⟨PendingState.BOOKING_DELAY, some freshId⟩]⟩,
        "Event booked with id: " ++ toString freshId) :=
  rfl

/-- Claim C6: with `Pending` active, both `book()` and `cancel()` leave the
configuration — current state and the scheduled timer queue — completely
unchanged and return the still-processing message; the timer is never
reset, extended or stopped by these calls. -/
theorem c6_pending_frame (i : JSNum) (ts : List Timer) (freshId : Nat) :
    doBook freshId ⟨St.pendingSt i, ts⟩ = (⟨St.pendingSt i, ts⟩, msgPleaseWait) ∧
      doCancel ⟨St.pendingSt i, ts⟩ = (⟨St.pendingSt i, ts⟩, msgPleaseWait) :=
  ⟨rfl, rfl⟩

/-- Claim C7: with `Cancelled` active, `book()` installs a new `Pending`
handler re-using the stored id and registers a fresh deferred-completion
timer, returning the rebooked-with-old-id message; `cancel()` performs no
transition and returns the already-cancelled message. -/
theorem c7_cancelled_ops (old : JSNum) (ts : List Timer) (freshId : Nat) :
    doBook freshId ⟨St.cancelledSt old, ts⟩ =
      (⟨St.pendingSt old, ts ++ [⟨PendingState.BOOKING_DELAY, old⟩]⟩,
        msgRebooked old) ∧
      doCancel ⟨St.cancelledSt old, ts⟩ =
        (⟨St.cancelledSt old, ts⟩, msgAlreadyCancelled) :=
  ⟨rfl, rfl⟩

/-- Claim C8 (counterexample): the deferred-completion delay is not exposed
as a constructor or configuration parameter — no constructor in the system
takes a delay argument; `BOOKING_DELAY` is a fixed constant. -/
theorem c8_counterexample :
    "delay" ∉ PendingState.constructorParams ∧
      "BOOKING_DELAY" ∉ PendingState.constructorParams ∧
      "delay" ∉ Context.constructorParams ∧
      "delay" ∉ OpenState.constructorParams ∧
      "delay" ∉ BookedState.constructorParams ∧
      "delay" ∉ CancelledState.constructorParams ∧
      PendingState.BOOKING_DELAY = 10000 := by
  decide

/-- Claim C8 (amended): the deferred-completion delay is a fixed private
static constant of 10000 milliseconds; every timer registered by a
`Pending` construction carries exactly this delay, and no constructor
accepts a delay or any other configuration argument. -/
theorem c8_delay_fixed (id : JSNum) (ts : List Timer) :
    PendingState.BOOKING_DELAY = 10000 ∧
      (mkPendingState id ts).2 = ts ++ [⟨10000, id⟩] ∧
      PendingState.constructorParams = ["id", "context"] ∧
      Context.constructorParams = [] :=
  ⟨rfl, rfl, rfl, rfl⟩

/-- Claim C9: every illegal-for-this-state action is a valid, total call
that performs no transition, touches no timer, and returns an explanatory
response string: cancelling when nothing is booked, booking or cancelling
while pending, booking when already booked, and cancelling when already
cancelled.  (All operations of the embedding are total functions returning
a configuration and a string; no failure value exists.) -/
theorem c9_illegal_actions_report (i b o : JSNum) (ts1 ts2 ts3 ts4 : List Timer)
    (f1 f2 : Nat) :
    doCancel ⟨St.openSt, ts1⟩ = (⟨St.openSt, ts1⟩, msgNothingBooked) ∧
      doBook f1 ⟨St.pendingSt i, ts2⟩ = (⟨St.pendingSt i, ts2⟩, msgPleaseWait) ∧
      doCancel ⟨St.pendingSt i, ts2⟩ = (⟨St.pendingSt i, ts2⟩, msgPleaseWait) ∧
      doBook f2 ⟨St.bookedSt b, ts3⟩ = (⟨St.bookedSt b, ts3⟩, msgAlreadyBooked) ∧
      doCancel ⟨St.cancelledSt o, ts4⟩ =
        (⟨St.cancelledSt o, ts4⟩, msgAlreadyCancelled) :=
  ⟨rfl, rfl, rfl, rfl, rfl⟩

/-- Claim C10: `Open` is installed only by the context's constructor and is
never re-entered — no step from a non-`Open` configuration yields `Open` —
and along every trace from a fresh context at most one fresh booking
identifier is ever allocated. -/
theorem c10_open_not_reentered_alloc_once (cfg : Config) (e : Event)
    (tr : List Event) :
    (cfg.cur ≠ St.openSt → (stepEv cfg e).cur ≠ St.openSt) ∧
      (runAlloc tr).2 ≤ 1 := by
  constructor
  · intro h
    obtain ⟨cur, ts⟩ := cfg
    exact stepEv_no_reopen cur ts e h
  · exact (runAllocFrom_invariant tr (initConfig, 0) (fun _ => rfl)
      (Nat.zero_le 1)).2

/-- Witness for C10 at concrete inputs: a step from `Booked` does not
re-enter `Open`, and a double-booking trace allocates at most one id. -/
theorem c10_witness :
    (stepEv ⟨St.bookedSt none, []⟩ Event.cancelAct).cur ≠ St.openSt ∧
      (runAlloc [Event.bookAct 3, Event.bookAct 4]).2 ≤ 1 :=
  ⟨(c10_open_not_reentered_alloc_once ⟨St.bookedSt none, []⟩ Event.cancelAct
      []).1 (by decide),
    (c10_open_not_reentered_alloc_once ⟨St.bookedSt none, []⟩ Event.cancelAct
      [Event.bookAct 3, Event.bookAct 4]).2⟩

end StatePattern
